import Mathlib

/-
Verification of the paired-endpoint socket dispatcher
(src/kernel/object/socket_dispatcher.cpp) against its specification.

The dispatcher code is embedded shallowly: each C++ method of
SocketDispatcher becomes a Lean function on an explicit two-endpoint
state (SocketPair).  Machine integers (zx_signals_t, uint32_t bitsets,
size_t lengths) are modelled as Nat; bit operations use Nat.land /
Nat.lor / Nat.xor.  Fallible user-memory copies are modelled by option
types.  The inbound byte pipeline (class MBufChain) and the numeric
values of the zircon signal constants are not part of the sampled
sources; they are modelled from the specification and marked as such.
-/

namespace Zircon

/-- Status codes (zx_status_t) returned by the dispatcher operations. -/
inductive ZxStatus where
  | ok
  | invalidArgs
  | noMemory
  | peerClosed
  | badState
  | shouldWait
  | outOfRange
  | notSupported
  | bufferFull
  deriving DecidableEq, Repr

/-- Modelled from the spec: the signal bitset constants of the wire contract
(zircon/types.h is not in the sampled sources).  Each named signal is one bit;
the user signals occupy a disjoint high block. -/
def ZX_SOCKET_READABLE : Nat := 1

def ZX_SOCKET_WRITABLE : Nat := 2

def ZX_SOCKET_PEER_CLOSED : Nat := 4

def ZX_SOCKET_READ_DISABLED : Nat := 16

def ZX_SOCKET_WRITE_DISABLED : Nat := 32

def ZX_SOCKET_CONTROL_READABLE : Nat := 64

def ZX_SOCKET_CONTROL_WRITABLE : Nat := 128

def ZX_SOCKET_ACCEPT : Nat := 256

def ZX_SOCKET_SHARE : Nat := 512

/-- Modelled from the spec: the block of user-definable signal bits. -/
def ZX_USER_SIGNAL_ALL : Nat := 0xff000000

/-- Modelled from the spec: creation flag DATAGRAM = 1 shl 0. -/
def ZX_SOCKET_DATAGRAM : Nat := 1

/-- Modelled from the spec: creation flag HAS_CONTROL = 1 shl 1. -/
def ZX_SOCKET_HAS_CONTROL : Nat := 2

/-- Modelled from the spec: creation flag HAS_ACCEPT = 1 shl 2. -/
def ZX_SOCKET_HAS_ACCEPT : Nat := 4

def ZX_SOCKET_CREATE_MASK : Nat :=
  ZX_SOCKET_DATAGRAM ||| ZX_SOCKET_HAS_CONTROL ||| ZX_SOCKET_HAS_ACCEPT

def ZX_SOCKET_SHUTDOWN_READ : Nat := 1

def ZX_SOCKET_SHUTDOWN_WRITE : Nat := 2

/-- Capacity of a control-message slot (kControlMsgSize in the source header,
modelled from the spec: CONTROL_MSG_MAX = 1024). -/
def kControlMsgSize : Nat := 1024

/-- Modelled from the spec: BUF_MAX, the total capacity of one endpoint's
inbound pipeline (implementation-chosen; the spec recommends at least 64 KiB,
we fix 64 KiB). -/
def kSizeMax : Nat := 65536

/-- The signal update of the Dispatcher base class:
state = (state and not clear_mask) or set_mask.  On Nat the and-not is
realised by xor with the intersection, which agrees bitwise. -/
def updateState (sig clear_mask set_mask : Nat) : Nat :=
  (sig ^^^ (sig &&& clear_mask)) ||| set_mask

/-- Modelled from the spec: a user-space destination buffer for
copy_array_to_user.  It is either a null pointer (the Read query case), a
faulty mapping on which copies fail with INVALID_ARGS, or a good buffer. -/
inductive UserOutPtr where
  | null
  | bad
  | good
  deriving DecidableEq, Repr

/-- Modelled from the spec: a user-space source buffer for
copy_array_from_user: none is a faulty buffer (copies fail with
INVALID_ARGS), some bs a readable buffer holding the bytes bs. -/
abbrev UserInPtr : Type := Option (List Nat)

/-- Modelled from the spec: reading len bytes out of a user buffer holding
bs yields exactly len bytes (missing bytes read as 0). -/
def copyBytes (bs : List Nat) (len : Nat) : List Nat :=
  bs.take len ++ List.replicate (len - bs.length) 0

/-- Modelled from the spec: the bounded inbound pipeline (class MBufChain,
whose implementation is not in the sampled sources).  In stream mode the
bytes live in stream; in datagram mode each frame is one list in frames and
internally costs 4 extra bytes of capacity for its 32-bit length header.
Only one of the two components is ever populated on a given socket. -/
structure MBufChain where
  stream : List Nat
  frames : List (List Nat)
  deriving DecidableEq, Repr

/-- Bytes a reader can still consume (the value reported by the Read query). -/
def MBufChain.size (c : MBufChain) : Nat :=
  c.stream.length + (c.frames.map List.length).sum

/-- Capacity actually used, counting the 4-byte length header of each
datagram frame. -/
def MBufChain.occupancy (c : MBufChain) : Nat :=
  c.stream.length + (c.frames.map (fun f => 4 + f.length)).sum

def MBufChain.is_empty (c : MBufChain) : Bool :=
  c.occupancy == 0

def MBufChain.is_full (c : MBufChain) : Bool :=
  decide (kSizeMax ≤ c.occupancy)

/-- Modelled from the spec: stream write appends as many bytes as fit and
reports the count consumed; BUFFER_FULL only when already at capacity;
INVALID_ARGS on a bad user buffer. -/
def MBufChain.WriteStream (c : MBufChain) (src : UserInPtr) (len : Nat) :
    ZxStatus × Nat × MBufChain :=
  if c.is_full then (.bufferFull, 0, c)
  else
    match src with
    | none => (.invalidArgs, 0, c)
    | some bs =>
      let n := min len (kSizeMax - c.occupancy)
      (.ok, n, { c with stream := c.stream ++ (copyBytes bs len).take n })

/-- Modelled from the spec: datagram write is all-or-nothing; the frame is
accepted only when its 4-byte header plus payload fit; otherwise
SHOULD_WAIT; INVALID_ARGS on a bad user buffer. -/
def MBufChain.WriteDatagram (c : MBufChain) (src : UserInPtr) (len : Nat) :
    ZxStatus × Nat × MBufChain :=
  if kSizeMax < c.occupancy + 4 + len then (.shouldWait, 0, c)
  else
    match src with
    | none => (.invalidArgs, 0, c)
    | some bs => (.ok, len, { c with frames := c.frames ++ [copyBytes bs len] })

/-- Modelled from the spec: Read consumes a prefix of the stream, or exactly
one datagram frame truncated to the caller's length (the rest of that frame
is discarded); it reports the count of bytes delivered. -/
def MBufChain.Read (c : MBufChain) (len : Nat) (datagram : Bool) :
    Nat × MBufChain :=
  if datagram then
    match c.frames with
    | [] => (0, c)
    | f :: rest => (min f.length len, { c with frames := rest })
  else
    (min len c.stream.length, { c with stream := c.stream.drop len })

/-- One endpoint of a socket pair (class SocketDispatcher).  signals_ is the
Dispatcher-base signal word; control_msg_ holds the control_msg_len_ valid
bytes of the control slot (empty list = empty slot, matching
control_msg_len_ == 0). -/
structure SocketDispatcher where
  flags_ : Nat
  signals_ : Nat
  data_ : MBufChain
  control_msg_ : List Nat
  read_disabled_ : Bool
  deriving DecidableEq, Repr

def SocketDispatcher.UpdateState (sk : SocketDispatcher)
    (clear_mask set_mask : Nat) : SocketDispatcher :=
  { sk with signals_ := updateState sk.signals_ clear_mask set_mask }

def SocketDispatcher.GetSignalsState (sk : SocketDispatcher) : Nat :=
  sk.signals_

/-- SocketDispatcher::OnPeerZeroHandles, the part below the other_.reset():
clear WRITABLE, set PEER_CLOSED. -/
def SocketDispatcher.OnPeerZeroHandles (sk : SocketDispatcher) : SocketDispatcher :=
  sk.UpdateState ZX_SOCKET_WRITABLE ZX_SOCKET_PEER_CLOSED

/-- SocketDispatcher::UserSignalSelf. -/
def SocketDispatcher.UserSignalSelf (sk : SocketDispatcher)
    (clear_mask set_mask : Nat) : SocketDispatcher :=
  sk.UpdateState clear_mask set_mask

/-- SocketDispatcher::ShutdownOther, run under the peer's lock.  Returns the
status together with the updated socket. -/
def SocketDispatcher.ShutdownOther (sk : SocketDispatcher) (how : Nat) :
    ZxStatus × SocketDispatcher :=
  let shutdown_read : Bool := how &&& ZX_SOCKET_SHUTDOWN_READ != 0
  let shutdown_write : Bool := how &&& ZX_SOCKET_SHUTDOWN_WRITE != 0
  let clear_mask := if shutdown_read then ZX_SOCKET_WRITABLE else 0
  let set_mask := (if shutdown_read then ZX_SOCKET_WRITE_DISABLED else 0) |||
    (if shutdown_write && sk.data_.is_empty then ZX_SOCKET_READ_DISABLED else 0)
  (.ok, { sk with
            read_disabled_ := if shutdown_write then true else sk.read_disabled_,
            signals_ := updateState sk.signals_ clear_mask set_mask })

/-- One side of a pair. -/
inductive Side where
  | A
  | B
  deriving DecidableEq, Repr

/-- The whole observable state of one endpoint pair.  aClosed / bClosed
record that on_zero_handles already ran on that endpoint; both other_
pointers are non-null exactly while neither side is closed (the close of
either side resets both, see on_zero_handles / OnPeerZeroHandles). -/
structure SocketPair where
  a : SocketDispatcher
  b : SocketDispatcher
  aClosed : Bool
  bClosed : Bool
  deriving DecidableEq, Repr

/-- Whether the other_ references are still in place. -/
def SocketPair.linked (p : SocketPair) : Bool :=
  !p.aClosed && !p.bClosed

def SocketPair.self : SocketPair → Side → SocketDispatcher
  | p, .A => p.a
  | p, .B => p.b

def SocketPair.peer : SocketPair → Side → SocketDispatcher
  | p, .A => p.b
  | p, .B => p.a

def SocketPair.withSelf : SocketPair → Side → SocketDispatcher → SocketPair
  | p, .A, sk => { p with a := sk }
  | p, .B, sk => { p with b := sk }

def SocketPair.withPeer : SocketPair → Side → SocketDispatcher → SocketPair
  | p, .A, sk => { p with b := sk }
  | p, .B, sk => { p with a := sk }

def SocketPair.markClosed : SocketPair → Side → SocketPair
  | p, .A => { p with aClosed := true }
  | p, .B => { p with bClosed := true }

def SocketPair.closedOf : SocketPair → Side → Bool
  | p, .A => p.aClosed
  | p, .B => p.bClosed

/-- The starting signal word computed by SocketDispatcher::Create. -/
def startingSignals (flags : Nat) : Nat :=
  (ZX_SOCKET_WRITABLE |||
    (if flags &&& ZX_SOCKET_HAS_ACCEPT != 0 then ZX_SOCKET_SHARE else 0)) |||
  (if flags &&& ZX_SOCKET_HAS_CONTROL != 0 then ZX_SOCKET_CONTROL_WRITABLE else 0)

/-- A fresh endpoint as the SocketDispatcher constructor builds it. -/
def mkSocket (flags : Nat) : SocketDispatcher :=
  { flags_ := flags
    signals_ := startingSignals flags
    data_ := { stream := [], frames := [] }
    control_msg_ := []
    read_disabled_ := false }

/-- SocketDispatcher::Create.  Allocation is assumed to succeed (NO_MEMORY is
not modelled); unknown flag bits are rejected with INVALID_ARGS. -/
def SocketPair.Create (flags : Nat) : Except ZxStatus SocketPair :=
  if flags &&& ZX_SOCKET_CREATE_MASK ≠ flags then .error .invalidArgs
  else .ok { a := mkSocket flags, b := mkSocket flags,
             aClosed := false, bClosed := false }

/-- SocketDispatcher::on_zero_handles on side s followed by
OnPeerZeroHandles on its peer (which only runs while the back reference is
still in place). -/
def SocketPair.on_zero_handles (p : SocketPair) (s : Side) : SocketPair :=
  if p.linked then
    (p.markClosed s).withPeer s ((p.peer s).OnPeerZeroHandles)
  else
    p.markClosed s

/-- SocketDispatcher::user_signal called on side s. -/
def SocketPair.user_signal (p : SocketPair) (s : Side)
    (clear_mask set_mask : Nat) (peer : Bool) : ZxStatus × SocketPair :=
  if set_mask &&& ZX_USER_SIGNAL_ALL ≠ set_mask ∨
      clear_mask &&& ZX_USER_SIGNAL_ALL ≠ clear_mask then
    (.invalidArgs, p)
  else if peer = false then
    (.ok, p.withSelf s ((p.self s).UpdateState clear_mask set_mask))
  else if p.linked = false then
    (.peerClosed, p)
  else
    (.ok, p.withPeer s ((p.peer s).UserSignalSelf clear_mask set_mask))

/-- The mutation SocketDispatcher::Shutdown performs on its own endpoint
under the local lock once the idempotence check has not fired: latch
read_disabled_ on a READ shutdown (raising READ_DISABLED only when the
inbound pipeline is empty), and on a WRITE shutdown clear WRITABLE and set
WRITE_DISABLED. -/
def SocketDispatcher.ShutdownSelf (sk : SocketDispatcher) (how : Nat) :
    SocketDispatcher :=
  let shutdown_read : Bool := how &&& ZX_SOCKET_SHUTDOWN_READ != 0
  let shutdown_write : Bool := how &&& ZX_SOCKET_SHUTDOWN_WRITE != 0
  let clear_mask := if shutdown_write then ZX_SOCKET_WRITABLE else 0
  let set_mask :=
    (if shutdown_read && sk.data_.is_empty then ZX_SOCKET_READ_DISABLED else 0) |||
    (if shutdown_write then ZX_SOCKET_WRITE_DISABLED else 0)
  { sk with
      read_disabled_ := if shutdown_read then true else sk.read_disabled_,
      signals_ := updateState sk.signals_ clear_mask set_mask }

/-- SocketDispatcher::Shutdown called on side s. -/
def SocketPair.Shutdown (p : SocketPair) (s : Side) (how : Nat) :
    ZxStatus × SocketPair :=
  let sk := p.self s
  let shutdown_read : Bool := how &&& ZX_SOCKET_SHUTDOWN_READ != 0
  let shutdown_write : Bool := how &&& ZX_SOCKET_SHUTDOWN_WRITE != 0
  let want_signals :=
    (if shutdown_read then ZX_SOCKET_READ_DISABLED else 0) |||
    (if shutdown_write then ZX_SOCKET_WRITE_DISABLED else 0)
  let have_signals :=
    sk.GetSignalsState &&& (ZX_SOCKET_READ_DISABLED ||| ZX_SOCKET_WRITE_DISABLED)
  if want_signals = have_signals then (.ok, p)
  else
    let p1 := p.withSelf s (sk.ShutdownSelf how)
    if p1.linked then
      let r := (p1.peer s).ShutdownOther how
      (r.1, p1.withPeer s r.2)
    else
      (.ok, p1)

/-- SocketDispatcher::WriteSelf, run on the writer's peer (the endpoint of
the opposite side of s); the final WRITABLE clearing reaches back to the
writer itself through the peer's own back reference. -/
def SocketPair.WriteSelf (p : SocketPair) (s : Side) (src : UserInPtr)
    (len : Nat) : ZxStatus × Nat × SocketPair :=
  let tgt := p.peer s
  if tgt.data_.is_full then (.shouldWait, 0, p)
  else
    let was_empty := tgt.data_.is_empty
    let r := if tgt.flags_ &&& ZX_SOCKET_DATAGRAM != 0 then
               tgt.data_.WriteDatagram src len
             else
               tgt.data_.WriteStream src len
    match r with
    | (ZxStatus.ok, st, d) =>
      let tgt1 := { tgt with data_ := d }
      let tgt2 := if 0 < st then
                    (if was_empty then tgt1.UpdateState 0 ZX_SOCKET_READABLE else tgt1)
                  else tgt1
      let p1 := p.withPeer s tgt2
      let p2 := if p1.linked && tgt2.data_.is_full then
                  p1.withSelf s ((p1.self s).UpdateState ZX_SOCKET_WRITABLE 0)
                else p1
      (.ok, st, p2)
    | (status, _, _) => (status, 0, p)

/-- SocketDispatcher::Write called on side s. -/
def SocketPair.Write (p : SocketPair) (s : Side) (src : UserInPtr) (len : Nat) :
    ZxStatus × Nat × SocketPair :=
  if p.linked = false then (.peerClosed, 0, p)
  else if (p.self s).GetSignalsState &&& ZX_SOCKET_WRITE_DISABLED ≠ 0 then
    (.badState, 0, p)
  else if len = 0 then (.ok, 0, p)
  else if 2 ^ 32 ≤ len then (.invalidArgs, 0, p)
  else p.WriteSelf s src len

/-- SocketDispatcher::Read called on side s. -/
def SocketPair.Read (p : SocketPair) (s : Side) (dst : UserOutPtr) (len : Nat) :
    ZxStatus × Nat × SocketPair :=
  let sk := p.self s
  if dst = UserOutPtr.null ∧ len = 0 then (.ok, sk.data_.size, p)
  else if 2 ^ 32 ≤ len then (.invalidArgs, 0, p)
  else if sk.data_.is_empty then
    if p.linked = false then (.peerClosed, 0, p)
    else if sk.read_disabled_ then (.badState, 0, p)
    else (.shouldWait, 0, p)
  else
    let was_full := sk.data_.is_full
    let r := sk.data_.Read len (sk.flags_ &&& ZX_SOCKET_DATAGRAM != 0)
    let sk1 := { sk with data_ := r.2 }
    let sk2 := if sk1.data_.is_empty then
                 sk1.UpdateState ZX_SOCKET_READABLE
                   (if sk1.read_disabled_ then ZX_SOCKET_READ_DISABLED else 0)
               else sk1
    let p1 := p.withSelf s sk2
    let p2 := if p1.linked && (was_full && 0 < r.1) then
                p1.withPeer s ((p1.peer s).UpdateState 0 ZX_SOCKET_WRITABLE)
              else p1
    (.ok, r.1, p2)

/-- SocketDispatcher::WriteControlSelf, run on the writer's peer; the
CONTROL_WRITABLE clearing reaches back to the writer itself. -/
def SocketPair.WriteControlSelf (p : SocketPair) (s : Side) (src : UserInPtr)
    (len : Nat) : ZxStatus × SocketPair :=
  let tgt := p.peer s
  if tgt.control_msg_.length ≠ 0 then (.shouldWait, p)
  else
    match src with
    | none => (.invalidArgs, p)
    | some bs =>
      let tgt1 := { tgt with control_msg_ := copyBytes bs len }
      let tgt2 := tgt1.UpdateState 0 ZX_SOCKET_CONTROL_READABLE
      let p1 := p.withPeer s tgt2
      let p2 := if p1.linked then
                  p1.withSelf s ((p1.self s).UpdateState ZX_SOCKET_CONTROL_WRITABLE 0)
                else p1
      (.ok, p2)

/-- SocketDispatcher::WriteControl called on side s. -/
def SocketPair.WriteControl (p : SocketPair) (s : Side) (src : UserInPtr)
    (len : Nat) : ZxStatus × SocketPair :=
  if (p.self s).flags_ &&& ZX_SOCKET_HAS_CONTROL = 0 then (.badState, p)
  else if len = 0 then (.invalidArgs, p)
  else if kControlMsgSize < len then (.outOfRange, p)
  else if p.linked = false then (.peerClosed, p)
  else p.WriteControlSelf s src len

/-- Whether a signal of the given mask is asserted (signals_ and mask
nonzero), as the source tests bits of GetSignalsState. -/
def SocketDispatcher.hasSignal (sk : SocketDispatcher) (mask : Nat) : Bool :=
  sk.signals_ &&& mask != 0

/-- SocketDispatcher::ReadControl called on side s.  The third component is
the byte list delivered to the caller. -/
def SocketPair.ReadControl (p : SocketPair) (s : Side) (dst : UserOutPtr)
    (len : Nat) : ZxStatus × Nat × List Nat × SocketPair :=
  let sk := p.self s
  if sk.flags_ &&& ZX_SOCKET_HAS_CONTROL = 0 then (.badState, 0, [], p)
  else if sk.control_msg_.length = 0 then (.shouldWait, 0, [], p)
  else
    let copy_len := min sk.control_msg_.length len
    if dst ≠ UserOutPtr.good then (.invalidArgs, 0, [], p)
    else
      let sk1 := { sk with control_msg_ := [] }
      let sk2 := sk1.UpdateState ZX_SOCKET_CONTROL_READABLE 0
      let p1 := p.withSelf s sk2
      let p2 := if p1.linked then
                  p1.withPeer s ((p1.peer s).UpdateState 0 ZX_SOCKET_CONTROL_WRITABLE)
                else p1
      (.ok, copy_len, sk.control_msg_.take copy_len, p2)

/-- The data-side observable state of a pair, as claim C7 frames it: both
inbound pipelines, both read_disabled_ latches, and the READABLE, WRITABLE,
READ_DISABLED and WRITE_DISABLED signal bits of both endpoints. -/
def dataSignalMask : Nat :=
  ZX_SOCKET_READABLE ||| ZX_SOCKET_WRITABLE |||
  ZX_SOCKET_READ_DISABLED ||| ZX_SOCKET_WRITE_DISABLED

def dataView (p : SocketPair) : MBufChain × MBufChain × Nat × Nat :=
  (p.a.data_, p.b.data_, p.a.signals_ &&& dataSignalMask, p.b.signals_ &&& dataSignalMask)

/-- The control-side observable state of a pair: both control slots and the
CONTROL_READABLE and CONTROL_WRITABLE signal bits of both endpoints. -/
def ctrlSignalMask : Nat :=
  ZX_SOCKET_CONTROL_READABLE ||| ZX_SOCKET_CONTROL_WRITABLE

def ctrlView (p : SocketPair) : List Nat × List Nat × Nat × Nat :=
  (p.a.control_msg_, p.b.control_msg_, p.a.signals_ &&& ctrlSignalMask, p.b.signals_ &&& ctrlSignalMask)

/-- Everything an operation on the control channel may not touch: both
pipelines, both read_disabled_ latches, flags, lifecycle bits, and the
signal words restricted to an arbitrary mask M. -/
def dataSideView (M : Nat) (p : SocketPair) :=
  (p.a.signals_ &&& M, p.b.signals_ &&& M, p.a.data_, p.b.data_,
   p.a.read_disabled_, p.b.read_disabled_, p.a.flags_, p.b.flags_, p.aClosed, p.bClosed)

/-- Everything a data-side operation may not touch: both control slots,
flags, lifecycle bits, and the signal words restricted to a mask M. -/
def ctrlSideView (M : Nat) (p : SocketPair) :=
  (p.a.signals_ &&& M, p.b.signals_ &&& M, p.a.control_msg_, p.b.control_msg_,
   p.a.flags_, p.b.flags_, p.aClosed, p.bClosed)

/-- Footprint of the data write path on the signal words: READABLE and
WRITABLE only. -/
def writeSignalMask : Nat := ZX_SOCKET_READABLE ||| ZX_SOCKET_WRITABLE

/-- Footprint of the data read path: READABLE, WRITABLE, READ_DISABLED. -/
def readSignalMask : Nat :=
  ZX_SOCKET_READABLE ||| ZX_SOCKET_WRITABLE ||| ZX_SOCKET_READ_DISABLED

/-- Footprint of Shutdown: WRITABLE, READ_DISABLED, WRITE_DISABLED. -/
def shutdownSignalMask : Nat :=
  ZX_SOCKET_WRITABLE ||| ZX_SOCKET_READ_DISABLED ||| ZX_SOCKET_WRITE_DISABLED

/-! The states of an endpoint pair reachable by Write, Read and Shutdown
operations from a freshly created pair, the step set claim C1 quantifies
over. -/

inductive ReachableRWS : SocketPair → Prop where
  | create (flags : Nat) (p : SocketPair) :
      SocketPair.Create flags = .ok p → ReachableRWS p
  | write (p : SocketPair) (s : Side) (src : UserInPtr) (len : Nat) :
      ReachableRWS p → ReachableRWS (p.Write s src len).2.2
  | read (p : SocketPair) (s : Side) (dst : UserOutPtr) (len : Nat) :
      ReachableRWS p → ReachableRWS (p.Read s dst len).2.2
  | shutdown (p : SocketPair) (s : Side) (how : Nat) :
      ReachableRWS p → ReachableRWS (p.Shutdown s how).2

/-- One invocation of any modelled operation of the dispatcher surface, on
either side of the pair (the step set claim C8 quantifies over). -/
inductive Step : SocketPair → SocketPair → Prop where
  | write (p : SocketPair) (s : Side) (src : UserInPtr) (len : Nat) :
      Step p (p.Write s src len).2.2
  | read (p : SocketPair) (s : Side) (dst : UserOutPtr) (len : Nat) :
      Step p (p.Read s dst len).2.2
  | shutdown (p : SocketPair) (s : Side) (how : Nat) :
      Step p (p.Shutdown s how).2
  | write_control (p : SocketPair) (s : Side) (src : UserInPtr) (len : Nat) :
      Step p (p.WriteControl s src len).2
  | read_control (p : SocketPair) (s : Side) (dst : UserOutPtr) (len : Nat) :
      Step p (p.ReadControl s dst len).2.2.2
  | user_sig (p : SocketPair) (s : Side) (clear_mask set_mask : Nat) (peer : Bool) :
      Step p (p.user_signal s clear_mask set_mask peer).2
  | close (p : SocketPair) (s : Side) :
      Step p (p.on_zero_handles s)

/-- Any finite sequence of operations. -/
def Steps : SocketPair → SocketPair → Prop :=
  Relation.ReflTransGen Step

/-- A freshly created plain stream pair (Create 0). -/
def pair0 : SocketPair :=
  { a := mkSocket 0, b := mkSocket 0, aClosed := false, bClosed := false }

/-- Counterexample trace for claim C1, first state: pair0 after A wrote
65536 bytes, filling the B-side inbound exactly (B gains READABLE, A loses
WRITABLE). -/
def cexS1 : SocketPair :=
  { a := { flags_ := 0, signals_ := 0, data_ := { stream := [], frames := [] },
           control_msg_ := [], read_disabled_ := false },
    b := { flags_ := 0, signals_ := 3,
           data_ := { stream := List.replicate 65536 7, frames := [] },
           control_msg_ := [], read_disabled_ := false },
    aClosed := false, bClosed := false }

/-- Second state: cexS1 after A performed Shutdown(WRITE): A carries
WRITE_DISABLED (signals 32), B latches read_disabled_ while keeping its
buffered data. -/
def cexS2 : SocketPair :=
  { a := { flags_ := 0, signals_ := 32, data_ := { stream := [], frames := [] },
           control_msg_ := [], read_disabled_ := false },
    b := { flags_ := 0, signals_ := 3,
           data_ := { stream := List.replicate 65536 7, frames := [] },
           control_msg_ := [], read_disabled_ := true },
    aClosed := false, bClosed := false }

/-- Final state: cexS2 after B read one byte out of its full inbound
pipeline; the code re-asserts WRITABLE on A (signals 34 = WRITABLE or
WRITE_DISABLED) although A still carries WRITE_DISABLED. -/
def cexP3 : SocketPair :=
  { a := { flags_ := 0, signals_ := 34, data_ := { stream := [], frames := [] },
           control_msg_ := [], read_disabled_ := false },
    b := { flags_ := 0, signals_ := 3,
           data_ := { stream := (List.replicate 65536 7).drop 1, frames := [] },
           control_msg_ := [], read_disabled_ := true },
    aClosed := false, bClosed := false }

/-- The opposite side of a pair. -/
def otherSide : Side → Side
  | .A => .B
  | .B => .A

/-- The inductive invariant behind the amended claim C1 for states reachable
by Write, Read and Shutdown: both endpoints still hold handles, no inbound
pipeline ever exceeds its capacity, and a set WRITABLE signal implies the
peer pipeline is not full. -/
def WritableInv (p : SocketPair) : Prop :=
  p.aClosed = false ∧ p.bClosed = false ∧
  (∀ t : Side, (p.self t).data_.occupancy ≤ kSizeMax) ∧
  (∀ t : Side, (p.self t).signals_.testBit 1 = true → (p.peer t).data_.is_full = false)

/-- The property claim C1 asserts of every reachable state. -/
def C1Property (p : SocketPair) : Prop :=
  ∀ s : Side, (p.self s).hasSignal ZX_SOCKET_WRITABLE = true →
    p.linked = true ∧ (p.peer s).data_.is_full = false ∧
    (p.self s).hasSignal ZX_SOCKET_WRITE_DISABLED = false

/-- A pair whose A side dropped its last handle (the B side observes
PEER_CLOSED), used to instantiate the C8 preservation theorem. -/
def closedPair : SocketPair := pair0.on_zero_handles .A

/-- The closed pair after a further write attempt on the surviving side. -/
def closedPairStepped : SocketPair := (closedPair.Write .B (some [1]) 1).2.2

/-! Basic lemmas about the pair accessors and the signal-word update. -/

@[simp] theorem SocketPair.self_A (p : SocketPair) : p.self .A = p.a := rfl

@[simp] theorem SocketPair.self_B (p : SocketPair) : p.self .B = p.b := rfl

@[simp] theorem SocketPair.peer_A (p : SocketPair) : p.peer .A = p.b := rfl

@[simp] theorem SocketPair.peer_B (p : SocketPair) : p.peer .B = p.a := rfl

@[simp] theorem SocketPair.withSelf_A (p : SocketPair) (sk : SocketDispatcher) :
    p.withSelf .A sk = { p with a := sk } := rfl

@[simp] theorem SocketPair.withSelf_B (p : SocketPair) (sk : SocketDispatcher) :
    p.withSelf .B sk = { p with b := sk } := rfl

@[simp] theorem SocketPair.withPeer_A (p : SocketPair) (sk : SocketDispatcher) :
    p.withPeer .A sk = { p with b := sk } := rfl

@[simp] theorem SocketPair.withPeer_B (p : SocketPair) (sk : SocketDispatcher) :
    p.withPeer .B sk = { p with a := sk } := rfl

theorem Nat.testBit_updateState (sig c m i : Nat) :
    (updateState sig c m).testBit i =
      ((sig.testBit i && !(c.testBit i)) || m.testBit i) := by
  simp only [updateState, Nat.testBit_lor, Nat.testBit_xor, Nat.testBit_land]
  cases sig.testBit i <;> cases c.testBit i <;> cases m.testBit i <;> rfl

theorem and_single_bit (sig k : Nat) : (sig &&& 2 ^ k ≠ 0) ↔ sig.testBit k = true := by
  rw [Nat.and_two_pow]
  cases h : sig.testBit k
  · simp
  · simp [(Nat.pow_pos (show 0 < 2 by norm_num) (n := k)).ne']

theorem hasSignal_eq_testBit (sk : SocketDispatcher) (k : Nat) :
    sk.hasSignal (2 ^ k) = sk.signals_.testBit k := by
  rw [SocketDispatcher.hasSignal, Nat.and_two_pow]
  cases h : sk.signals_.testBit k
  · simp
  · simp [bne_iff_ne, (Nat.pow_pos (show 0 < 2 by norm_num) (n := k)).ne']

/-- Bits outside clear_mask and set_mask are untouched by updateState. -/
theorem and_updateState_of_disjoint (sig c m M : Nat)
    (hc : c &&& M = 0) (hm : m &&& M = 0) :
    updateState sig c m &&& M = sig &&& M := by
  apply Nat.eq_of_testBit_eq
  intro i
  have hci : (c.testBit i && M.testBit i) = false := by
    have h := congrArg (fun n => n.testBit i) hc
    simpa only [Nat.testBit_land, Nat.zero_testBit] using h
  have hmi : (m.testBit i && M.testBit i) = false := by
    have h := congrArg (fun n => n.testBit i) hm
    simpa only [Nat.testBit_land, Nat.zero_testBit] using h
  simp only [Nat.testBit_land, Nat.testBit_updateState]
  cases hM : M.testBit i
  · simp
  · rw [hM, Bool.and_true] at hci hmi
    simp [hci, hmi]

@[simp] theorem SocketPair.linked_withSelf (p : SocketPair) (s : Side) (sk : SocketDispatcher) :
    (p.withSelf s sk).linked = p.linked := by cases s <;> rfl

@[simp] theorem SocketPair.linked_withPeer (p : SocketPair) (s : Side) (sk : SocketDispatcher) :
    (p.withPeer s sk).linked = p.linked := by cases s <;> rfl

@[simp] theorem SocketPair.self_withSelf (p : SocketPair) (s : Side) (sk : SocketDispatcher) :
    (p.withSelf s sk).self s = sk := by cases s <;> rfl

@[simp] theorem SocketPair.peer_withSelf (p : SocketPair) (s : Side) (sk : SocketDispatcher) :
    (p.withSelf s sk).peer s = p.peer s := by cases s <;> rfl

@[simp] theorem SocketPair.self_withPeer (p : SocketPair) (s : Side) (sk : SocketDispatcher) :
    (p.withPeer s sk).self s = p.self s := by cases s <;> rfl

@[simp] theorem SocketPair.peer_withPeer (p : SocketPair) (s : Side) (sk : SocketDispatcher) :
    (p.withPeer s sk).peer s = sk := by cases s <;> rfl

@[simp] theorem SocketPair.withSelf_withSelf (p : SocketPair) (s : Side)
    (x y : SocketDispatcher) : (p.withSelf s x).withSelf s y = p.withSelf s y := by
  cases s <;> rfl

theorem SocketPair.withSelf_self (p : SocketPair) (s : Side) :
    p.withSelf s (p.self s) = p := by cases s <;> rfl

theorem updateState_idem (sig c m : Nat) :
    updateState (updateState sig c m) c m = updateState sig c m := by
  apply Nat.eq_of_testBit_eq
  intro i
  simp only [Nat.testBit_updateState]
  cases sig.testBit i <;> cases c.testBit i <;> cases m.testBit i <;> rfl

theorem updateState_testBit_set (sig c m : Nat) (k : Nat) (hm : m.testBit k = true) :
    (updateState sig c m).testBit k = true := by
  simp [Nat.testBit_updateState, hm]

theorem updateState_testBit_clear (sig c m : Nat) (k : Nat)
    (hc : c.testBit k = true) (hm : m.testBit k = false) :
    (updateState sig c m).testBit k = false := by
  simp [Nat.testBit_updateState, hc, hm]

theorem updateState_testBit_frame (sig c m : Nat) (k : Nat)
    (hc : c.testBit k = false) (hm : m.testBit k = false) :
    (updateState sig c m).testBit k = sig.testBit k := by
  simp [Nat.testBit_updateState, hc, hm]

@[simp] theorem hasSignal_READABLE (sk : SocketDispatcher) :
    sk.hasSignal ZX_SOCKET_READABLE = sk.signals_.testBit 0 := by
  rw [show ZX_SOCKET_READABLE = 2 ^ 0 from rfl, hasSignal_eq_testBit]

@[simp] theorem hasSignal_WRITABLE (sk : SocketDispatcher) :
    sk.hasSignal ZX_SOCKET_WRITABLE = sk.signals_.testBit 1 := by
  rw [show ZX_SOCKET_WRITABLE = 2 ^ 1 from rfl, hasSignal_eq_testBit]

@[simp] theorem hasSignal_PEER_CLOSED (sk : SocketDispatcher) :
    sk.hasSignal ZX_SOCKET_PEER_CLOSED = sk.signals_.testBit 2 := by
  rw [show ZX_SOCKET_PEER_CLOSED = 2 ^ 2 from rfl, hasSignal_eq_testBit]

@[simp] theorem hasSignal_READ_DISABLED (sk : SocketDispatcher) :
    sk.hasSignal ZX_SOCKET_READ_DISABLED = sk.signals_.testBit 4 := by
  rw [show ZX_SOCKET_READ_DISABLED = 2 ^ 4 from rfl, hasSignal_eq_testBit]

@[simp] theorem hasSignal_WRITE_DISABLED (sk : SocketDispatcher) :
    sk.hasSignal ZX_SOCKET_WRITE_DISABLED = sk.signals_.testBit 5 := by
  rw [show ZX_SOCKET_WRITE_DISABLED = 2 ^ 5 from rfl, hasSignal_eq_testBit]

@[simp] theorem hasSignal_CONTROL_READABLE (sk : SocketDispatcher) :
    sk.hasSignal ZX_SOCKET_CONTROL_READABLE = sk.signals_.testBit 6 := by
  rw [show ZX_SOCKET_CONTROL_READABLE = 2 ^ 6 from rfl, hasSignal_eq_testBit]

@[simp] theorem hasSignal_CONTROL_WRITABLE (sk : SocketDispatcher) :
    sk.hasSignal ZX_SOCKET_CONTROL_WRITABLE = sk.signals_.testBit 7 := by
  rw [show ZX_SOCKET_CONTROL_WRITABLE = 2 ^ 7 from rfl, hasSignal_eq_testBit]

theorem and_eq_zero_of_subset (c F M : Nat) (hsub : c &&& F = c) (h : M &&& F = 0) :
    c &&& M = 0 := by
  apply Nat.eq_of_testBit_eq
  intro i
  have h1 := congrArg (fun n => n.testBit i) hsub
  have h2 := congrArg (fun n => n.testBit i) h
  simp only [Nat.testBit_land, Nat.zero_testBit] at h1 h2 ⊢
  cases hc : c.testBit i <;> cases hM : M.testBit i <;> cases hF : F.testBit i <;> simp_all

/-- Framing of WriteControl: every field but the control slots and the
control signal bits of the two endpoints is untouched, for any observation
mask M disjoint from the control bits. -/
theorem frame_WriteControl (p : SocketPair) (s : Side) (src : UserInPtr) (len : Nat)
    (M : Nat) (hM : M &&& ctrlSignalMask = 0) :
    dataSideView M ((p.WriteControl s src len).2) = dataSideView M p := by
  have hcr : ∀ sig : Nat, updateState sig 0 ZX_SOCKET_CONTROL_READABLE &&& M = sig &&& M :=
    fun sig => and_updateState_of_disjoint _ _ _ _ (by simp)
      (and_eq_zero_of_subset _ ctrlSignalMask _ (by decide) hM)
  have hcw : ∀ sig : Nat, updateState sig ZX_SOCKET_CONTROL_WRITABLE 0 &&& M = sig &&& M :=
    fun sig => and_updateState_of_disjoint _ _ _ _
      (and_eq_zero_of_subset _ ctrlSignalMask _ (by decide) hM) (by simp)
  cases s <;> simp only [SocketPair.WriteControl, SocketPair.WriteControlSelf]
  all_goals repeat' split
  all_goals simp [dataSideView, SocketDispatcher.UpdateState, hcr, hcw]

/-- Framing of ReadControl, as for WriteControl. -/
theorem frame_ReadControl (p : SocketPair) (s : Side) (dst : UserOutPtr) (len : Nat)
    (M : Nat) (hM : M &&& ctrlSignalMask = 0) :
    dataSideView M ((p.ReadControl s dst len).2.2.2) = dataSideView M p := by
  have hcr : ∀ sig : Nat, updateState sig ZX_SOCKET_CONTROL_READABLE 0 &&& M = sig &&& M :=
    fun sig => and_updateState_of_disjoint _ _ _ _
      (and_eq_zero_of_subset _ ctrlSignalMask _ (by decide) hM) (by simp)
  have hcw : ∀ sig : Nat, updateState sig 0 ZX_SOCKET_CONTROL_WRITABLE &&& M = sig &&& M :=
    fun sig => and_updateState_of_disjoint _ _ _ _ (by simp)
      (and_eq_zero_of_subset _ ctrlSignalMask _ (by decide) hM)
  cases s <;> simp only [SocketPair.ReadControl]
  all_goals repeat' split
  all_goals simp [dataSideView, SocketDispatcher.UpdateState, hcr, hcw]

set_option maxHeartbeats 1600000 in
/-- Framing of Write: only the inbound pipelines and the READABLE and
WRITABLE bits can change; control slots, flags, lifecycle bits and every
signal outside the write footprint are untouched. -/
theorem frame_Write (p : SocketPair) (s : Side) (src : UserInPtr) (len : Nat)
    (M : Nat) (hM : M &&& writeSignalMask = 0) :
    ctrlSideView M ((p.Write s src len).2.2) = ctrlSideView M p := by
  have h1 : ∀ sig : Nat, updateState sig 0 ZX_SOCKET_READABLE &&& M = sig &&& M :=
    fun sig => and_updateState_of_disjoint _ _ _ _ (by simp)
      (and_eq_zero_of_subset _ writeSignalMask _ (by decide) hM)
  have h2 : ∀ sig : Nat, updateState sig ZX_SOCKET_WRITABLE 0 &&& M = sig &&& M :=
    fun sig => and_updateState_of_disjoint _ _ _ _
      (and_eq_zero_of_subset _ writeSignalMask _ (by decide) hM) (by simp)
  rcases src with _ | bs <;> cases s <;>
    simp only [SocketPair.Write, SocketPair.WriteSelf,
      MBufChain.WriteStream, MBufChain.WriteDatagram]
  all_goals repeat' split
  all_goals simp [ctrlSideView, SocketDispatcher.UpdateState, h1, h2]

set_option maxHeartbeats 1600000 in
/-- Framing of Read: only the inbound pipelines and the READABLE, WRITABLE
and READ_DISABLED bits can change. -/
theorem frame_Read (p : SocketPair) (s : Side) (dst : UserOutPtr) (len : Nat)
    (M : Nat) (hM : M &&& readSignalMask = 0) :
    ctrlSideView M ((p.Read s dst len).2.2) = ctrlSideView M p := by
  have h1 : ∀ sig : Nat, updateState sig ZX_SOCKET_READABLE ZX_SOCKET_READ_DISABLED &&& M = sig &&& M :=
    fun sig => and_updateState_of_disjoint _ _ _ _
      (and_eq_zero_of_subset _ readSignalMask _ (by decide) hM)
      (and_eq_zero_of_subset _ readSignalMask _ (by decide) hM)
  have h2 : ∀ sig : Nat, updateState sig ZX_SOCKET_READABLE 0 &&& M = sig &&& M :=
    fun sig => and_updateState_of_disjoint _ _ _ _
      (and_eq_zero_of_subset _ readSignalMask _ (by decide) hM) (by simp)
  have h3 : ∀ sig : Nat, updateState sig 0 ZX_SOCKET_WRITABLE &&& M = sig &&& M :=
    fun sig => and_updateState_of_disjoint _ _ _ _ (by simp)
      (and_eq_zero_of_subset _ readSignalMask _ (by decide) hM)
  cases s <;> simp only [SocketPair.Read, MBufChain.Read]
  all_goals repeat' split
  all_goals simp [ctrlSideView, SocketDispatcher.UpdateState, h1, h2, h3]

/-- Framing of Shutdown: control slots, pipelines, flags, lifecycle bits and
every signal outside its footprint are untouched. -/
theorem frame_Shutdown (p : SocketPair) (s : Side) (how : Nat)
    (M : Nat) (hM : M &&& shutdownSignalMask = 0) :
    ctrlSideView M ((p.Shutdown s how).2) = ctrlSideView M p := by
  have hz : ∀ c m : Nat, c &&& shutdownSignalMask = c → m &&& shutdownSignalMask = m →
      ∀ sig : Nat, updateState sig c m &&& M = sig &&& M := fun c m hc hm sig =>
    and_updateState_of_disjoint _ _ _ _
      (and_eq_zero_of_subset _ shutdownSignalMask _ hc hM)
      (and_eq_zero_of_subset _ shutdownSignalMask _ hm hM)
  cases s <;>
    simp only [SocketPair.Shutdown, SocketDispatcher.ShutdownSelf,
      SocketDispatcher.ShutdownOther, SocketDispatcher.GetSignalsState]
  all_goals repeat' split
  all_goals simp [ctrlSideView, SocketDispatcher.UpdateState,
    hz 0 0 (by decide) (by decide),
    hz 0 ZX_SOCKET_READ_DISABLED (by decide) (by decide),
    hz 0 ZX_SOCKET_WRITE_DISABLED (by decide) (by decide),
    hz 0 (ZX_SOCKET_READ_DISABLED ||| ZX_SOCKET_WRITE_DISABLED) (by decide) (by decide),
    hz ZX_SOCKET_WRITABLE 0 (by decide) (by decide),
    hz ZX_SOCKET_WRITABLE ZX_SOCKET_READ_DISABLED (by decide) (by decide),
    hz ZX_SOCKET_WRITABLE ZX_SOCKET_WRITE_DISABLED (by decide) (by decide),
    hz ZX_SOCKET_WRITABLE (ZX_SOCKET_READ_DISABLED ||| ZX_SOCKET_WRITE_DISABLED)
      (by decide) (by decide),
    hz 0 (ZX_SOCKET_WRITE_DISABLED ||| ZX_SOCKET_READ_DISABLED) (by decide) (by decide),
    hz ZX_SOCKET_WRITABLE (ZX_SOCKET_WRITE_DISABLED ||| ZX_SOCKET_READ_DISABLED)
      (by decide) (by decide)]

/-- Framing of user_signal: it only ever touches signal bits inside the
user block, on one endpoint. -/
theorem frame_user_signal (p : SocketPair) (s : Side) (clear_mask set_mask : Nat)
    (peer : Bool) (M : Nat) (hM : M &&& ZX_USER_SIGNAL_ALL = 0) :
    dataSideView M ((p.user_signal s clear_mask set_mask peer).2) = dataSideView M p ∧
    ctrlSideView M ((p.user_signal s clear_mask set_mask peer).2) = ctrlSideView M p := by
  by_cases hval : set_mask &&& ZX_USER_SIGNAL_ALL ≠ set_mask ∨
      clear_mask &&& ZX_USER_SIGNAL_ALL ≠ clear_mask
  · simp [SocketPair.user_signal, hval]
  · have hs : set_mask &&& ZX_USER_SIGNAL_ALL = set_mask := by tauto
    have hc : clear_mask &&& ZX_USER_SIGNAL_ALL = clear_mask := by tauto
    have hupd : ∀ sig : Nat, updateState sig clear_mask set_mask &&& M = sig &&& M :=
      fun sig => and_updateState_of_disjoint _ _ _ _
        (and_eq_zero_of_subset _ ZX_USER_SIGNAL_ALL _ hc hM)
        (and_eq_zero_of_subset _ ZX_USER_SIGNAL_ALL _ hs hM)
    cases peer
    · cases s <;>
        simp [SocketPair.user_signal, hval, dataSideView, ctrlSideView,
          SocketDispatcher.UpdateState, hupd]
    · by_cases hl : p.linked = false
      · simp [SocketPair.user_signal, hval, hl]
      · cases s <;>
          simp [SocketPair.user_signal, hval, hl, SocketDispatcher.UserSignalSelf,
            SocketDispatcher.UpdateState, dataSideView, ctrlSideView, hupd]

@[simp] theorem SocketPair.markClosed_a (p : SocketPair) (s : Side) :
    (p.markClosed s).a = p.a := by cases s <;> rfl

@[simp] theorem SocketPair.markClosed_b (p : SocketPair) (s : Side) :
    (p.markClosed s).b = p.b := by cases s <;> rfl

/-- The close event only raises PEER_CLOSED (on the surviving peer); it never
clears it on either endpoint. -/
theorem close_pc (p : SocketPair) (s t : Side)
    (h : (p.self t).hasSignal ZX_SOCKET_PEER_CLOSED = true) :
    ((p.on_zero_handles s).self t).hasSignal ZX_SOCKET_PEER_CLOSED = true := by
  have hset : ∀ sig : Nat,
      (updateState sig ZX_SOCKET_WRITABLE ZX_SOCKET_PEER_CLOSED).testBit 2 = true :=
    fun sig => updateState_testBit_set _ _ _ 2 (by decide)
  unfold SocketPair.on_zero_handles
  split
  · cases s <;> cases t <;>
      simp_all [SocketDispatcher.OnPeerZeroHandles, SocketDispatcher.UpdateState, hset]
  · cases s <;> cases t <;> simp_all

/-- Extract the PEER_CLOSED bit of either side from a ctrlSideView equality. -/
theorem pc_eq_of_ctrlSideView (p q : SocketPair)
    (h : ctrlSideView ZX_SOCKET_PEER_CLOSED q = ctrlSideView ZX_SOCKET_PEER_CLOSED p)
    (s : Side) :
    (q.self s).hasSignal ZX_SOCKET_PEER_CLOSED =
      (p.self s).hasSignal ZX_SOCKET_PEER_CLOSED := by
  cases s
  · have h1 := congrArg (fun t => t.1) h
    simp only [ctrlSideView] at h1
    simp [SocketDispatcher.hasSignal, h1]
  · have h1 := congrArg (fun t => t.2.1) h
    simp only [ctrlSideView] at h1
    simp [SocketDispatcher.hasSignal, h1]

/-- Extract the PEER_CLOSED bit of either side from a dataSideView equality. -/
theorem pc_eq_of_dataSideView (p q : SocketPair)
    (h : dataSideView ZX_SOCKET_PEER_CLOSED q = dataSideView ZX_SOCKET_PEER_CLOSED p)
    (s : Side) :
    (q.self s).hasSignal ZX_SOCKET_PEER_CLOSED =
      (p.self s).hasSignal ZX_SOCKET_PEER_CLOSED := by
  cases s
  · have h1 := congrArg (fun t => t.1) h
    simp only [dataSideView] at h1
    simp [SocketDispatcher.hasSignal, h1]
  · have h1 := congrArg (fun t => t.2.1) h
    simp only [dataSideView] at h1
    simp [SocketDispatcher.hasSignal, h1]

/-- One step never clears PEER_CLOSED on either endpoint. -/
theorem step_pc (p q : SocketPair) (h : Step p q) (s : Side)
    (hpc : (p.self s).hasSignal ZX_SOCKET_PEER_CLOSED = true) :
    (q.self s).hasSignal ZX_SOCKET_PEER_CLOSED = true := by
  cases h with
  | write s' src len =>
    rw [pc_eq_of_ctrlSideView _ _ (frame_Write p s' src len _ (by decide)) s]
    exact hpc
  | read s' dst len =>
    rw [pc_eq_of_ctrlSideView _ _ (frame_Read p s' dst len _ (by decide)) s]
    exact hpc
  | shutdown s' how =>
    rw [pc_eq_of_ctrlSideView _ _ (frame_Shutdown p s' how _ (by decide)) s]
    exact hpc
  | write_control s' src len =>
    rw [pc_eq_of_dataSideView _ _ (frame_WriteControl p s' src len _ (by decide)) s]
    exact hpc
  | read_control s' dst len =>
    rw [pc_eq_of_dataSideView _ _ (frame_ReadControl p s' dst len _ (by decide)) s]
    exact hpc
  | user_sig s' c m peer =>
    rw [pc_eq_of_dataSideView _ _ (frame_user_signal p s' c m peer _ (by decide)).1 s]
    exact hpc
  | close s' => exact close_pc p s' s hpc

/-- C8: the zero-handles event latches PEER_CLOSED: OnPeerZeroHandles raises
PEER_CLOSED (and clears WRITABLE) on the surviving endpoint, and thereafter
no sequence of Write, Read, Shutdown, WriteControl, ReadControl, user_signal
or further close operations on either endpoint ever clears PEER_CLOSED. -/
theorem C8_peer_closed_latched :
    (∀ (p : SocketPair) (s : Side), p.linked = true →
      ((p.on_zero_handles s).peer s).hasSignal ZX_SOCKET_PEER_CLOSED = true ∧
      ((p.on_zero_handles s).peer s).hasSignal ZX_SOCKET_WRITABLE = false) ∧
    (∀ p q : SocketPair, Steps p q → ∀ s : Side,
      (p.self s).hasSignal ZX_SOCKET_PEER_CLOSED = true →
      (q.self s).hasSignal ZX_SOCKET_PEER_CLOSED = true) := by
  constructor
  · intro p s hl
    have hset : ∀ sig : Nat,
        (updateState sig ZX_SOCKET_WRITABLE ZX_SOCKET_PEER_CLOSED).testBit 2 = true :=
      fun sig => updateState_testBit_set _ _ _ 2 (by decide)
    have hclr : ∀ sig : Nat,
        (updateState sig ZX_SOCKET_WRITABLE ZX_SOCKET_PEER_CLOSED).testBit 1 = false :=
      fun sig => updateState_testBit_clear _ _ _ 1 (by decide) (by decide)
    unfold SocketPair.on_zero_handles
    rw [if_pos hl]
    cases s <;>
      simp [SocketDispatcher.OnPeerZeroHandles, SocketDispatcher.UpdateState, hset, hclr]
  · intro p q hsteps
    induction hsteps with
    | refl => exact fun s h => h
    | tail _ hstep ih => exact fun s h => step_pc _ _ hstep s (ih s h)

/-- C7: control orthogonality.  A WriteControl or ReadControl call leaves
both inbound pipelines and the READABLE, WRITABLE, READ_DISABLED and
WRITE_DISABLED signals of both endpoints unchanged; conversely a Write or
Read call leaves both control slots and the CONTROL_READABLE and
CONTROL_WRITABLE signals of both endpoints unchanged. -/
theorem C7_control_orthogonality (p : SocketPair) (s : Side) (src : UserInPtr)
    (dst : UserOutPtr) (len : Nat) :
    dataView ((p.WriteControl s src len).2) = dataView p ∧
    dataView ((p.ReadControl s dst len).2.2.2) = dataView p ∧
    ctrlView ((p.Write s src len).2.2) = ctrlView p ∧
    ctrlView ((p.Read s dst len).2.2) = ctrlView p := by
  have hwc := frame_WriteControl p s src len dataSignalMask (by decide)
  have hrc := frame_ReadControl p s dst len dataSignalMask (by decide)
  have hw := frame_Write p s src len ctrlSignalMask (by decide)
  have hr := frame_Read p s dst len ctrlSignalMask (by decide)
  simp only [dataSideView, ctrlSideView, Prod.mk.injEq] at hwc hrc hw hr
  refine ⟨?_, ?_, ?_, ?_⟩
  · simp [dataView, hwc.1, hwc.2.1, hwc.2.2.1, hwc.2.2.2.1]
  · simp [dataView, hrc.1, hrc.2.1, hrc.2.2.1, hrc.2.2.2.1]
  · simp [ctrlView, hw.1, hw.2.1, hw.2.2.1, hw.2.2.2.1]
  · simp [ctrlView, hr.1, hr.2.1, hr.2.2.1, hr.2.2.2.1]

/-- C2: the early checks of SocketDispatcher::Write are applied in exactly
this order: PEER_CLOSED when the peer reference is gone; else BAD_STATE when
WRITE_DISABLED is set on this endpoint; else a zero-length write returns
nwritten = 0 with OK and leaves the whole pair state unchanged; else
INVALID_ARGS when len exceeds the 32-bit range.  In particular a zero-length
write on a peer-closed endpoint returns PEER_CLOSED, not OK. -/
theorem C2_write_check_order (p : SocketPair) (s : Side) (src : UserInPtr) (len : Nat) :
    (p.linked = false → p.Write s src len = (.peerClosed, 0, p)) ∧
    (p.linked = true → (p.self s).hasSignal ZX_SOCKET_WRITE_DISABLED = true →
      p.Write s src len = (.badState, 0, p)) ∧
    (p.linked = true → (p.self s).hasSignal ZX_SOCKET_WRITE_DISABLED = false →
      len = 0 → p.Write s src len = (.ok, 0, p)) ∧
    (p.linked = true → (p.self s).hasSignal ZX_SOCKET_WRITE_DISABLED = false →
      len ≠ 0 → 2 ^ 32 ≤ len → p.Write s src len = (.invalidArgs, 0, p)) := by
  have hbit : ((p.self s).GetSignalsState &&& ZX_SOCKET_WRITE_DISABLED ≠ 0) ↔
      (p.self s).hasSignal ZX_SOCKET_WRITE_DISABLED = true := by
    simp [SocketDispatcher.hasSignal, SocketDispatcher.GetSignalsState, bne_iff_ne]
  refine ⟨fun hl => ?_, fun hl hw => ?_, fun hl hw h0 => ?_, fun hl hw h0 hbig => ?_⟩
  · simp [SocketPair.Write, hl]
  · simp [SocketPair.Write, hl, hbit.mpr hw]
  · have : ¬ ((p.self s).GetSignalsState &&& ZX_SOCKET_WRITE_DISABLED ≠ 0) := by
      intro hcon; rw [hbit] at hcon; simp [hcon] at hw
    simp [SocketPair.Write, hl, this, h0]
  · have : ¬ ((p.self s).GetSignalsState &&& ZX_SOCKET_WRITE_DISABLED ≠ 0) := by
      intro hcon; rw [hbit] at hcon; simp [hcon] at hw
    simp [SocketPair.Write, hl, this, h0, hbig]
    intro hlt
    exact absurd hbig (by omega)

/-- C6: a Read with an absent destination and len = 0 is a pure query: it
returns the number of buffered inbound bytes with OK and leaves the pair
(buffer and every signal of both endpoints) unchanged, on every state,
including an empty endpoint whose peer is closed (where it returns 0 with
OK rather than PEER_CLOSED). -/
theorem C6_read_query (p : SocketPair) (s : Side) :
    p.Read s UserOutPtr.null 0 = (.ok, (p.self s).data_.size, p) := by
  simp [SocketPair.Read]

/-- C9: ReadControl is atomic on a user-copy failure: on an endpoint with
HAS_CONTROL and an occupied control slot, when the destination buffer is
faulty (or null) the call returns INVALID_ARGS, delivers nothing, and the
whole pair state is returned unchanged: the slot still holds the same
message and no signal of either endpoint is modified. -/
theorem C9_read_control_copy_failure (p : SocketPair) (s : Side)
    (dst : UserOutPtr) (len : Nat)
    (hc : (p.self s).flags_ &&& ZX_SOCKET_HAS_CONTROL ≠ 0)
    (hslot : (p.self s).control_msg_.length ≠ 0)
    (hdst : dst ≠ UserOutPtr.good) :
    p.ReadControl s dst len = (.invalidArgs, 0, [], p) := by
  simp [SocketPair.ReadControl, hc, hslot, hdst]

/-- Concrete run of C9: an endpoint with HAS_CONTROL and the one-byte
message [7] in its slot, read through a faulty destination buffer. -/
theorem C9_read_control_copy_failure_witness :
    ({ a := { mkSocket ZX_SOCKET_HAS_CONTROL with control_msg_ := [7] },
       b := mkSocket ZX_SOCKET_HAS_CONTROL,
       aClosed := false, bClosed := false } : SocketPair).ReadControl
        .A UserOutPtr.bad 4 =
      (.invalidArgs, 0, [],
       { a := { mkSocket ZX_SOCKET_HAS_CONTROL with control_msg_ := [7] },
         b := mkSocket ZX_SOCKET_HAS_CONTROL,
         aClosed := false, bClosed := false }) :=
  C9_read_control_copy_failure _ .A UserOutPtr.bad 4 (by decide) (by decide) (by decide)

/-- C10: user_signal with both masks inside the user-signal block and
peer = false always succeeds and applies exactly those masks to this
endpoint's signal word, whether or not the peer is gone; PEER_CLOSED arises
only for peer = true on an unlinked pair; and masks with bits outside the
user block are rejected with INVALID_ARGS before any state change. -/
theorem C10_user_signal (p : SocketPair) (s : Side) (clear_mask set_mask : Nat) :
    (clear_mask &&& ZX_USER_SIGNAL_ALL = clear_mask →
      set_mask &&& ZX_USER_SIGNAL_ALL = set_mask →
      p.user_signal s clear_mask set_mask false =
        (.ok, p.withSelf s ((p.self s).UpdateState clear_mask set_mask))) ∧
    (∀ peer : Bool, (p.user_signal s clear_mask set_mask peer).1 = .peerClosed →
      peer = true ∧ p.linked = false) ∧
    (∀ peer : Bool,
      ¬ (clear_mask &&& ZX_USER_SIGNAL_ALL = clear_mask ∧
         set_mask &&& ZX_USER_SIGNAL_ALL = set_mask) →
      p.user_signal s clear_mask set_mask peer = (.invalidArgs, p)) := by
  refine ⟨fun hc hm => ?_, fun peer h => ?_, fun peer h => ?_⟩
  · simp [SocketPair.user_signal, hc, hm]
  · by_cases hmask : set_mask &&& ZX_USER_SIGNAL_ALL ≠ set_mask ∨
        clear_mask &&& ZX_USER_SIGNAL_ALL ≠ clear_mask
    · simp [SocketPair.user_signal, hmask] at h
    · cases peer
      · simp [SocketPair.user_signal, hmask] at h
      · by_cases hl : p.linked = false
        · exact ⟨rfl, hl⟩
        · simp [SocketPair.user_signal, hmask, hl] at h
  · have hmask : set_mask &&& ZX_USER_SIGNAL_ALL ≠ set_mask ∨
        clear_mask &&& ZX_USER_SIGNAL_ALL ≠ clear_mask := by tauto
    simp [SocketPair.user_signal, hmask]

/-- C5: the checks of SocketDispatcher::WriteControl, in order: BAD_STATE
without HAS_CONTROL; INVALID_ARGS for len = 0; OUT_OF_RANGE for len above
kControlMsgSize; PEER_CLOSED without a peer; SHOULD_WAIT when the peer's
control slot is occupied; otherwise the len bytes are stored in the peer's
slot, CONTROL_READABLE is raised on the peer and CONTROL_WRITABLE is
cleared on the calling endpoint. -/
theorem C5_write_control (p : SocketPair) (s : Side) (src : UserInPtr) (len : Nat) :
    ((p.self s).flags_ &&& ZX_SOCKET_HAS_CONTROL = 0 →
      p.WriteControl s src len = (.badState, p)) ∧
    ((p.self s).flags_ &&& ZX_SOCKET_HAS_CONTROL ≠ 0 → len = 0 →
      p.WriteControl s src len = (.invalidArgs, p)) ∧
    ((p.self s).flags_ &&& ZX_SOCKET_HAS_CONTROL ≠ 0 → len ≠ 0 →
      kControlMsgSize < len → p.WriteControl s src len = (.outOfRange, p)) ∧
    ((p.self s).flags_ &&& ZX_SOCKET_HAS_CONTROL ≠ 0 → len ≠ 0 →
      len ≤ kControlMsgSize → p.linked = false →
      p.WriteControl s src len = (.peerClosed, p)) ∧
    ((p.self s).flags_ &&& ZX_SOCKET_HAS_CONTROL ≠ 0 → len ≠ 0 →
      len ≤ kControlMsgSize → p.linked = true →
      (p.peer s).control_msg_.length ≠ 0 →
      p.WriteControl s src len = (.shouldWait, p)) ∧
    ((p.self s).flags_ &&& ZX_SOCKET_HAS_CONTROL ≠ 0 → len ≠ 0 →
      len ≤ kControlMsgSize → p.linked = true →
      (p.peer s).control_msg_.length = 0 →
      ∀ bs : List Nat, src = some bs →
      (p.WriteControl s src len).1 = .ok ∧
      (((p.WriteControl s src len).2).peer s).control_msg_ = copyBytes bs len ∧
      (((p.WriteControl s src len).2).peer s).hasSignal ZX_SOCKET_CONTROL_READABLE = true ∧
      (((p.WriteControl s src len).2).self s).hasSignal ZX_SOCKET_CONTROL_WRITABLE = false) := by
  refine ⟨fun h1 => ?_, fun h1 h2 => ?_, fun h1 h2 h3 => ?_,
    fun h1 h2 h3 h4 => ?_, fun h1 h2 h3 h4 h5 => ?_, fun h1 h2 h3 h4 h5 bs hbs => ?_⟩
  · simp [SocketPair.WriteControl, h1]
  · simp [SocketPair.WriteControl, h1, h2]
  · simp [SocketPair.WriteControl, h1, h2, h3]
  · have h3' : ¬ kControlMsgSize < len := by omega
    simp [SocketPair.WriteControl, h1, h2, h3', h4]
  · have h3' : ¬ kControlMsgSize < len := by omega
    simp [SocketPair.WriteControl, SocketPair.WriteControlSelf, h1, h2, h3', h4, h5]
  · subst hbs
    have h3' : ¬ kControlMsgSize < len := by omega
    simp only [SocketPair.linked, Bool.and_eq_true, Bool.not_eq_true'] at h4
    have hset : ∀ sig : Nat, (updateState sig 0 ZX_SOCKET_CONTROL_READABLE).testBit 6 = true :=
      fun sig => updateState_testBit_set _ _ _ 6 (by decide)
    have hclr : ∀ sig : Nat, (updateState sig ZX_SOCKET_CONTROL_WRITABLE 0).testBit 7 = false :=
      fun sig => updateState_testBit_clear _ _ _ 7 (by decide) (by decide)
    cases s <;> simp only [SocketPair.self_A, SocketPair.self_B,
        SocketPair.peer_A, SocketPair.peer_B] at h1 h5 <;>
      simp [SocketPair.WriteControl, SocketPair.WriteControlSelf, SocketPair.linked,
        SocketDispatcher.UpdateState, h1, h2, h3', h5, h4.1, h4.2, hset, hclr]

/-- C4: ReadControl without HAS_CONTROL fails BAD_STATE; with HAS_CONTROL
and an empty slot it fails SHOULD_WAIT; on an occupied slot holding m > 0
bytes it delivers exactly min(m, len) bytes with nread = min(m, len) and OK,
fully drains the slot no matter how much was requested, clears
CONTROL_READABLE locally, raises CONTROL_WRITABLE on the peer when the peer
is present, and a second ReadControl then fails SHOULD_WAIT. -/
theorem C4_read_control (p : SocketPair) (s : Side) (dst : UserOutPtr) (len : Nat) :
    ((p.self s).flags_ &&& ZX_SOCKET_HAS_CONTROL = 0 →
      p.ReadControl s dst len = (.badState, 0, [], p)) ∧
    ((p.self s).flags_ &&& ZX_SOCKET_HAS_CONTROL ≠ 0 →
      (p.self s).control_msg_ = [] →
      p.ReadControl s dst len = (.shouldWait, 0, [], p)) ∧
    ((p.self s).flags_ &&& ZX_SOCKET_HAS_CONTROL ≠ 0 →
      (p.self s).control_msg_ ≠ [] → dst = UserOutPtr.good →
      (p.ReadControl s dst len).1 = .ok ∧
      (p.ReadControl s dst len).2.1 = min (p.self s).control_msg_.length len ∧
      (p.ReadControl s dst len).2.2.1 =
        (p.self s).control_msg_.take (min (p.self s).control_msg_.length len) ∧
      (((p.ReadControl s dst len).2.2.2).self s).control_msg_ = [] ∧
      (((p.ReadControl s dst len).2.2.2).self s).hasSignal ZX_SOCKET_CONTROL_READABLE = false ∧
      (p.linked = true →
        (((p.ReadControl s dst len).2.2.2).peer s).hasSignal ZX_SOCKET_CONTROL_WRITABLE = true) ∧
      (∀ (dst' : UserOutPtr) (len' : Nat),
        (((p.ReadControl s dst len).2.2.2).ReadControl s dst' len').1 = .shouldWait)) := by
  refine ⟨fun h1 => ?_, fun h1 h2 => ?_, fun h1 h2 hdst => ?_⟩
  · simp [SocketPair.ReadControl, h1]
  · simp [SocketPair.ReadControl, h1, h2]
  · subst hdst
    have h2' : (p.self s).control_msg_.length ≠ 0 := by
      simpa [List.length_eq_zero] using h2
    have hclr : ∀ sig : Nat, (updateState sig ZX_SOCKET_CONTROL_READABLE 0).testBit 6 = false :=
      fun sig => updateState_testBit_clear _ _ _ 6 (by decide) (by decide)
    have hset : ∀ sig : Nat, (updateState sig 0 ZX_SOCKET_CONTROL_WRITABLE).testBit 7 = true :=
      fun sig => updateState_testBit_set _ _ _ 7 (by decide)
    by_cases hl : p.linked = true
    · simp only [SocketPair.linked, Bool.and_eq_true, Bool.not_eq_true'] at hl
      cases s <;> simp only [SocketPair.self_A, SocketPair.self_B,
          SocketPair.peer_A, SocketPair.peer_B] at h1 h2' <;>
        simp [SocketPair.ReadControl, SocketPair.linked, SocketDispatcher.UpdateState,
          h1, h2', hl.1, hl.2, hclr, hset]
    · have hl' : (!p.aClosed && !p.bClosed) = false := by
        simpa [SocketPair.linked] using hl
      cases s <;> simp only [SocketPair.self_A, SocketPair.self_B,
          SocketPair.peer_A, SocketPair.peer_B] at h1 h2' <;>
        simp [SocketPair.ReadControl, SocketPair.linked, SocketDispatcher.UpdateState,
          h1, h2', hl', hclr, hset]

@[simp] theorem SocketPair.withSelf_withPeer (p : SocketPair) (s : Side)
    (x y : SocketDispatcher) : (p.withPeer s x).withSelf s y = (p.withSelf s y).withPeer s x := by
  cases s <;> rfl

@[simp] theorem SocketPair.withPeer_withPeer (p : SocketPair) (s : Side)
    (x y : SocketDispatcher) : (p.withPeer s x).withPeer s y = p.withPeer s y := by
  cases s <;> rfl

theorem ShutdownOther_fst (sk : SocketDispatcher) (how : Nat) :
    (sk.ShutdownOther how).1 = .ok := rfl

theorem ShutdownOther_idem (sk : SocketDispatcher) (how : Nat) :
    ((sk.ShutdownOther how).2).ShutdownOther how = (.ok, (sk.ShutdownOther how).2) := by
  unfold SocketDispatcher.ShutdownOther
  cases hsr : (how &&& ZX_SOCKET_SHUTDOWN_READ != 0) <;>
    cases hsw : (how &&& ZX_SOCKET_SHUTDOWN_WRITE != 0) <;>
      cases hemp : sk.data_.is_empty <;>
        simp [hsr, hsw, hemp, updateState_idem]

theorem ShutdownSelf_idem (sk : SocketDispatcher) (how : Nat) :
    (sk.ShutdownSelf how).ShutdownSelf how = sk.ShutdownSelf how := by
  unfold SocketDispatcher.ShutdownSelf
  cases hsr : (how &&& ZX_SOCKET_SHUTDOWN_READ != 0) <;>
    cases hsw : (how &&& ZX_SOCKET_SHUTDOWN_WRITE != 0) <;>
      cases hemp : sk.data_.is_empty <;>
        simp [hsr, hsw, hemp, updateState_idem]

/-- C3: Shutdown is idempotent: an immediate second Shutdown with the same
mode returns the same status and the same observable state of both
endpoints as the first; and a Shutdown whose requested subset of
{READ_DISABLED, WRITE_DISABLED} is exactly the subset already present on
this endpoint returns OK at once, leaving the entire pair untouched (in
particular the peer is not notified). -/
theorem C3_shutdown_idempotent (p : SocketPair) (s : Side) (how : Nat) :
    ((p.Shutdown s how).2).Shutdown s how = p.Shutdown s how ∧
    ((if how &&& ZX_SOCKET_SHUTDOWN_READ != 0 then ZX_SOCKET_READ_DISABLED else 0) |||
        (if how &&& ZX_SOCKET_SHUTDOWN_WRITE != 0 then ZX_SOCKET_WRITE_DISABLED else 0) =
        (p.self s).signals_ &&& (ZX_SOCKET_READ_DISABLED ||| ZX_SOCKET_WRITE_DISABLED) →
      p.Shutdown s how = (.ok, p)) := by
  by_cases hc : (if how &&& ZX_SOCKET_SHUTDOWN_READ != 0 then ZX_SOCKET_READ_DISABLED else 0) |||
      (if how &&& ZX_SOCKET_SHUTDOWN_WRITE != 0 then ZX_SOCKET_WRITE_DISABLED else 0) =
      (p.self s).signals_ &&& (ZX_SOCKET_READ_DISABLED ||| ZX_SOCKET_WRITE_DISABLED)
  · have hfirst : p.Shutdown s how = (.ok, p) := by
      simp only [SocketPair.Shutdown, SocketDispatcher.GetSignalsState]
      rw [if_pos hc]
    refine ⟨?_, fun _ => hfirst⟩
    rw [hfirst]
    exact hfirst
  · refine ⟨?_, fun heq => absurd heq hc⟩
    by_cases hl : p.linked = true
    · have hfirst : p.Shutdown s how =
          (.ok, (p.withSelf s ((p.self s).ShutdownSelf how)).withPeer s
            (((p.peer s).ShutdownOther how).2)) := by
        simp only [SocketPair.Shutdown, SocketDispatcher.GetSignalsState]
        rw [if_neg hc]
        simp [hl, ShutdownOther_fst]
      rw [hfirst]
      simp only [SocketPair.Shutdown, SocketDispatcher.GetSignalsState,
        SocketPair.withSelf_withPeer, SocketPair.self_withPeer, SocketPair.self_withSelf,
        SocketPair.peer_withPeer, SocketPair.linked_withPeer, SocketPair.linked_withSelf]
      by_cases hc2 : (if how &&& ZX_SOCKET_SHUTDOWN_READ != 0 then ZX_SOCKET_READ_DISABLED else 0) |||
          (if how &&& ZX_SOCKET_SHUTDOWN_WRITE != 0 then ZX_SOCKET_WRITE_DISABLED else 0) =
          ((p.self s).ShutdownSelf how).signals_ &&&
            (ZX_SOCKET_READ_DISABLED ||| ZX_SOCKET_WRITE_DISABLED)
      · rw [if_pos hc2]
      · rw [if_neg hc2]
        simp [hl, ShutdownSelf_idem, ShutdownOther_idem, ShutdownOther_fst,
          SocketPair.withSelf_self]
    · have hl' : p.linked = false := by simpa using hl
      have hfirst : p.Shutdown s how =
          (.ok, p.withSelf s ((p.self s).ShutdownSelf how)) := by
        simp only [SocketPair.Shutdown, SocketDispatcher.GetSignalsState]
        rw [if_neg hc]
        simp [hl']
      rw [hfirst]
      simp only [SocketPair.Shutdown, SocketDispatcher.GetSignalsState,
        SocketPair.self_withSelf, SocketPair.linked_withSelf]
      by_cases hc2 : (if how &&& ZX_SOCKET_SHUTDOWN_READ != 0 then ZX_SOCKET_READ_DISABLED else 0) |||
          (if how &&& ZX_SOCKET_SHUTDOWN_WRITE != 0 then ZX_SOCKET_WRITE_DISABLED else 0) =
          ((p.self s).ShutdownSelf how).signals_ &&&
            (ZX_SOCKET_READ_DISABLED ||| ZX_SOCKET_WRITE_DISABLED)
      · rw [if_pos hc2]
      · rw [if_neg hc2]
        simp [hl', ShutdownSelf_idem, SocketPair.withSelf_self]

theorem cex_stage1 (bs : List Nat) (hlen : bs.length = 65536) :
    (pair0.Write .A (some bs) 65536).2.2 =
    { a := { flags_ := 0, signals_ := 0, data_ := { stream := [], frames := [] },
             control_msg_ := [], read_disabled_ := false },
      b := { flags_ := 0, signals_ := 3, data_ := { stream := bs, frames := [] },
             control_msg_ := [], read_disabled_ := false },
      aClosed := false, bClosed := false } := by
  simp [pair0, mkSocket, startingSignals, SocketPair.Write, SocketPair.WriteSelf,
    MBufChain.WriteStream, MBufChain.is_full, MBufChain.is_empty, MBufChain.occupancy,
    copyBytes, SocketDispatcher.UpdateState, updateState, SocketPair.linked,
    SocketDispatcher.GetSignalsState, hlen, kSizeMax,
    ZX_SOCKET_WRITABLE, ZX_SOCKET_READABLE, ZX_SOCKET_WRITE_DISABLED,
    ZX_SOCKET_DATAGRAM, ZX_SOCKET_HAS_ACCEPT, ZX_SOCKET_HAS_CONTROL,
    List.take_of_length_le, List.take_length,
    show (2 : Nat) &&& 32 = 0 from by decide]

theorem cex_stage2 (bs : List Nat) (hlen : bs.length = 65536) :
    (({ a := { flags_ := 0, signals_ := 0, data_ := { stream := [], frames := [] },
               control_msg_ := [], read_disabled_ := false },
        b := { flags_ := 0, signals_ := 3, data_ := { stream := bs, frames := [] },
               control_msg_ := [], read_disabled_ := false },
        aClosed := false, bClosed := false } : SocketPair).Shutdown
          .A ZX_SOCKET_SHUTDOWN_WRITE).2 =
    { a := { flags_ := 0, signals_ := 32, data_ := { stream := [], frames := [] },
             control_msg_ := [], read_disabled_ := false },
      b := { flags_ := 0, signals_ := 3, data_ := { stream := bs, frames := [] },
             control_msg_ := [], read_disabled_ := true },
      aClosed := false, bClosed := false } := by
  simp [SocketPair.Shutdown, SocketDispatcher.ShutdownSelf, SocketDispatcher.ShutdownOther,
    SocketDispatcher.GetSignalsState, SocketPair.linked, SocketDispatcher.UpdateState,
    updateState, MBufChain.is_empty, MBufChain.occupancy, hlen,
    ZX_SOCKET_SHUTDOWN_READ, ZX_SOCKET_SHUTDOWN_WRITE, ZX_SOCKET_WRITABLE,
    ZX_SOCKET_READ_DISABLED, ZX_SOCKET_WRITE_DISABLED]

theorem cex_stage3 (bs : List Nat) (hlen : bs.length = 65536) :
    (({ a := { flags_ := 0, signals_ := 32, data_ := { stream := [], frames := [] },
               control_msg_ := [], read_disabled_ := false },
        b := { flags_ := 0, signals_ := 3, data_ := { stream := bs, frames := [] },
               control_msg_ := [], read_disabled_ := true },
        aClosed := false, bClosed := false } : SocketPair).Read
          .B UserOutPtr.good 1).2.2 =
    { a := { flags_ := 0, signals_ := 34, data_ := { stream := [], frames := [] },
             control_msg_ := [], read_disabled_ := false },
      b := { flags_ := 0, signals_ := 3, data_ := { stream := bs.drop 1, frames := [] },
             control_msg_ := [], read_disabled_ := true },
      aClosed := false, bClosed := false } := by
  simp [SocketPair.Read, MBufChain.Read, MBufChain.is_empty, MBufChain.is_full,
    MBufChain.occupancy, SocketPair.linked, SocketDispatcher.UpdateState, updateState,
    hlen, kSizeMax, ZX_SOCKET_DATAGRAM, ZX_SOCKET_WRITABLE, ZX_SOCKET_READABLE,
    ZX_SOCKET_READ_DISABLED]

theorem cex_stage2_const : (cexS1.Shutdown .A ZX_SOCKET_SHUTDOWN_WRITE).2 = cexS2 := by
  unfold cexS1 cexS2
  exact cex_stage2 (List.replicate 65536 7) (by rw [List.length_replicate])

theorem cex_stage3_const : (cexS2.Read .B UserOutPtr.good 1).2.2 = cexP3 := by
  unfold cexS2 cexP3
  exact cex_stage3 (List.replicate 65536 7) (by rw [List.length_replicate])

/-- Counterexample to C1 as stated: the final state of the concrete trace
Create(0); A.Write(65536 bytes); A.Shutdown(WRITE); B.Read(1) is reachable
through Write, Read and Shutdown alone, yet on endpoint A both WRITABLE and
WRITE_DISABLED are set (signals = 34): the Read path re-asserts WRITABLE on
the peer of a drained-full buffer without checking the peer's
WRITE_DISABLED. -/
theorem C1_counterexample : ReachableRWS cexP3 ∧ ¬ C1Property cexP3 := by
  constructor
  · have r0 : ReachableRWS pair0 := .create 0 pair0 rfl
    have r1 : ReachableRWS ((pair0.Write .A (some (List.replicate 65536 7)) 65536).2.2) :=
      .write _ _ _ _ r0
    rw [cex_stage1 (List.replicate 65536 7) (by rw [List.length_replicate])] at r1
    have r1' : ReachableRWS cexS1 := r1
    have r2 : ReachableRWS ((cexS1.Shutdown .A ZX_SOCKET_SHUTDOWN_WRITE).2) :=
      .shutdown _ _ _ r1'
    rw [cex_stage2_const] at r2
    have r3 : ReachableRWS ((cexS2.Read .B UserOutPtr.good 1).2.2) := .read _ _ _ _ r2
    rw [cex_stage3_const] at r3
    exact r3
  · intro h
    exact absurd (h .A (by decide)).2.2 (by decide)


theorem copyBytes_length (bs : List Nat) (len : Nat) : (copyBytes bs len).length = len := by
  simp [copyBytes]
  omega

theorem is_full_false_iff (c : MBufChain) : c.is_full = false ↔ c.occupancy < kSizeMax := by
  simp [MBufChain.is_full]

theorem WriteStream_occupancy (c : MBufChain) (src : UserInPtr) (len : Nat)
    (h : c.occupancy ≤ kSizeMax) :
    ((c.WriteStream src len).2.2).occupancy ≤ kSizeMax := by
  unfold MBufChain.WriteStream
  split
  · exact h
  · rcases src with _ | bs
    · exact h
    · simp only [MBufChain.occupancy, List.length_append, List.length_take] at h ⊢
      omega

theorem WriteDatagram_occupancy (c : MBufChain) (src : UserInPtr) (len : Nat)
    (h : c.occupancy ≤ kSizeMax) :
    ((c.WriteDatagram src len).2.2).occupancy ≤ kSizeMax := by
  unfold MBufChain.WriteDatagram
  split
  · exact h
  · rename_i hguard
    rcases src with _ | bs
    · exact h
    · simp only [MBufChain.occupancy, List.map_append, List.map_cons, List.map_nil,
        List.sum_append, List.sum_cons, List.sum_nil, copyBytes_length] at hguard ⊢
      omega

theorem Read_occupancy_le (c : MBufChain) (len : Nat) (dg : Bool) :
    ((c.Read len dg).2).occupancy ≤ c.occupancy := by
  cases dg
  · simp [MBufChain.Read, MBufChain.occupancy, List.length_drop]
  · rcases hfr : c.frames with _ | ⟨f, rest⟩ <;>
      simp [MBufChain.Read, MBufChain.occupancy, hfr]

theorem Read_occupancy_lt (c : MBufChain) (len : Nat) (dg : Bool)
    (h : 0 < (c.Read len dg).1) :
    ((c.Read len dg).2).occupancy < c.occupancy := by
  cases dg
  · simp [MBufChain.Read, Nat.lt_min] at h
    simp [MBufChain.Read, MBufChain.occupancy, List.length_drop]
    try omega
  · rcases hfr : c.frames with _ | ⟨f, rest⟩
    · simp [MBufChain.Read, hfr] at h
    · simp [MBufChain.Read, hfr, Nat.lt_min] at h
      simp [MBufChain.Read, MBufChain.occupancy, hfr]
      try omega

theorem SocketPair.self_otherSide (p : SocketPair) (s : Side) :
    p.self (otherSide s) = p.peer s := by cases s <;> rfl

theorem SocketPair.peer_otherSide (p : SocketPair) (s : Side) :
    p.peer (otherSide s) = p.self s := by cases s <;> rfl

theorem side_eq_or (t s : Side) : s = t ∨ otherSide s = t := by
  cases t <;> cases s <;> simp [otherSide]

@[simp] theorem SocketPair.aClosed_withSelf (p : SocketPair) (s : Side) (sk : SocketDispatcher) :
    (p.withSelf s sk).aClosed = p.aClosed := by cases s <;> rfl

@[simp] theorem SocketPair.bClosed_withSelf (p : SocketPair) (s : Side) (sk : SocketDispatcher) :
    (p.withSelf s sk).bClosed = p.bClosed := by cases s <;> rfl

@[simp] theorem SocketPair.aClosed_withPeer (p : SocketPair) (s : Side) (sk : SocketDispatcher) :
    (p.withPeer s sk).aClosed = p.aClosed := by cases s <;> rfl

@[simp] theorem SocketPair.bClosed_withPeer (p : SocketPair) (s : Side) (sk : SocketDispatcher) :
    (p.withPeer s sk).bClosed = p.bClosed := by cases s <;> rfl


theorem inv_write_core (p : SocketPair) (s : Side) (tgt2 : SocketDispatcher)
    (hA : p.aClosed = false) (hB : p.bClosed = false)
    (hocc : ∀ t : Side, (p.self t).data_.occupancy ≤ kSizeMax)
    (hw : ∀ t : Side, (p.self t).signals_.testBit 1 = true → (p.peer t).data_.is_full = false)
    (hdocc : tgt2.data_.occupancy ≤ kSizeMax)
    (hb2 : tgt2.signals_.testBit 1 = (p.peer s).signals_.testBit 1) :
    WritableInv (if ((p.withPeer s tgt2).linked && tgt2.data_.is_full) = true then
        (p.withPeer s tgt2).withSelf s (((p.withPeer s tgt2).self s).UpdateState ZX_SOCKET_WRITABLE 0)
      else p.withPeer s tgt2) := by
  have hclr : ∀ sig : Nat, (updateState sig ZX_SOCKET_WRITABLE 0).testBit 1 = false :=
    fun sig => updateState_testBit_clear _ _ _ 1 (by decide) (by decide)
  split
  · rename_i hcond
    refine ⟨by simp [hA], by simp [hB], ?_, ?_⟩
    · intro t
      rcases side_eq_or t s with rfl | rfl
      · simp [SocketDispatcher.UpdateState]
        exact hocc s
      · rw [SocketPair.self_otherSide]
        simp
        exact hdocc
    · intro t hbit
      rcases side_eq_or t s with rfl | rfl
      · simp [SocketDispatcher.UpdateState, hclr] at hbit
      · rw [SocketPair.self_otherSide] at hbit
        rw [SocketPair.peer_otherSide]
        simp at hbit
        rw [hb2] at hbit
        have hws := hw (otherSide s)
        rw [SocketPair.self_otherSide, SocketPair.peer_otherSide] at hws
        simp [SocketDispatcher.UpdateState]
        exact hws hbit
  · rename_i hcond
    have hfull : tgt2.data_.is_full = false := by
      simp [SocketPair.linked, hA, hB] at hcond
      exact hcond
    refine ⟨by simp [hA], by simp [hB], ?_, ?_⟩
    · intro t
      rcases side_eq_or t s with rfl | rfl
      · simp
        exact hocc s
      · rw [SocketPair.self_otherSide]
        simp
        exact hdocc
    · intro t hbit
      rcases side_eq_or t s with rfl | rfl
      · simp
        exact hfull
      · rw [SocketPair.self_otherSide] at hbit
        rw [SocketPair.peer_otherSide]
        simp at hbit
        rw [hb2] at hbit
        have hws := hw (otherSide s)
        rw [SocketPair.self_otherSide, SocketPair.peer_otherSide] at hws
        simp
        exact hws hbit

theorem inv_write (p : SocketPair) (s : Side) (src : UserInPtr) (len : Nat)
    (h : WritableInv p) : WritableInv (p.Write s src len).2.2 := by
  obtain ⟨hA, hB, hocc, hw⟩ := h
  have hocc' : (p.peer s).data_.occupancy ≤ kSizeMax := by
    have := hocc (otherSide s); rwa [SocketPair.self_otherSide] at this
  have hfr1 : ∀ sig : Nat, (updateState sig 0 ZX_SOCKET_READABLE).testBit 1 = sig.testBit 1 :=
    fun sig => updateState_testBit_frame _ _ _ 1 (by decide) (by decide)
  unfold SocketPair.Write SocketPair.WriteSelf
  simp only []
  split
  · exact ⟨hA, hB, hocc, hw⟩
  split
  · exact ⟨hA, hB, hocc, hw⟩
  split
  · exact ⟨hA, hB, hocc, hw⟩
  split
  · exact ⟨hA, hB, hocc, hw⟩
  split
  · exact ⟨hA, hB, hocc, hw⟩
  split
  · rename_i r st d heq
    have hd : d.occupancy ≤ kSizeMax := by
      by_cases hdg : ((p.peer s).flags_ &&& ZX_SOCKET_DATAGRAM != 0) = true
      · rw [if_pos hdg] at heq
        have h2 := WriteDatagram_occupancy (p.peer s).data_ src len hocc'
        rw [heq] at h2
        exact h2
      · rw [if_neg hdg] at heq
        have h2 := WriteStream_occupancy (p.peer s).data_ src len hocc'
        rw [heq] at h2
        exact h2
    show WritableInv (if _ = true then _ else _)
    apply inv_write_core p s _ hA hB hocc hw
    · repeat' split
      all_goals simp [SocketDispatcher.UpdateState]
      all_goals exact hd
    · repeat' split
      all_goals simp [SocketDispatcher.UpdateState, hfr1]
  · exact ⟨hA, hB, hocc, hw⟩


theorem inv_read_core (p : SocketPair) (s : Side) (b : Bool) (sk2 : SocketDispatcher)
    (hA : p.aClosed = false) (hB : p.bClosed = false)
    (hocc : ∀ t : Side, (p.self t).data_.occupancy ≤ kSizeMax)
    (hw : ∀ t : Side, (p.self t).signals_.testBit 1 = true → (p.peer t).data_.is_full = false)
    (hocc2 : sk2.data_.occupancy ≤ kSizeMax)
    (hb2 : sk2.signals_.testBit 1 = (p.self s).signals_.testBit 1)
    (hbfull : b = true → sk2.data_.is_full = false)
    (hmono : (p.self s).data_.is_full = false → sk2.data_.is_full = false) :
    WritableInv (if ((p.withSelf s sk2).linked && b) = true then
        (p.withSelf s sk2).withPeer s (((p.withSelf s sk2).peer s).UpdateState 0 ZX_SOCKET_WRITABLE)
      else p.withSelf s sk2) := by
  have hset : ∀ sig : Nat, (updateState sig 0 ZX_SOCKET_WRITABLE).testBit 1 = true :=
    fun sig => updateState_testBit_set _ _ _ 1 (by decide)
  split
  · rename_i hcond
    have hb : b = true := by
      simp [SocketPair.linked, hA, hB] at hcond
      exact hcond
    refine ⟨by simp [hA], by simp [hB], ?_, ?_⟩
    · intro t
      rcases side_eq_or t s with rfl | rfl
      · simp
        exact hocc2
      · rw [SocketPair.self_otherSide]
        simp [SocketDispatcher.UpdateState]
        have := hocc (otherSide s)
        rwa [SocketPair.self_otherSide] at this
    · intro t hbit
      rcases side_eq_or t s with rfl | rfl
      · simp at hbit
        rw [hb2] at hbit
        have hws := hw s hbit
        simp [SocketDispatcher.UpdateState]
        exact hws
      · rw [SocketPair.peer_otherSide]
        simp
        exact hbfull hb
  · refine ⟨by simp [hA], by simp [hB], ?_, ?_⟩
    · intro t
      rcases side_eq_or t s with rfl | rfl
      · simp
        exact hocc2
      · rw [SocketPair.self_otherSide]
        simp
        have := hocc (otherSide s)
        rwa [SocketPair.self_otherSide] at this
    · intro t hbit
      rcases side_eq_or t s with rfl | rfl
      · simp at hbit
        rw [hb2] at hbit
        simp
        exact hw s hbit
      · rw [SocketPair.self_otherSide] at hbit
        rw [SocketPair.peer_otherSide]
        simp at hbit
        simp
        have hws := hw (otherSide s)
        rw [SocketPair.self_otherSide, SocketPair.peer_otherSide] at hws
        exact hmono (hws hbit)

theorem inv_read (p : SocketPair) (s : Side) (dst : UserOutPtr) (len : Nat)
    (h : WritableInv p) : WritableInv (p.Read s dst len).2.2 := by
  obtain ⟨hA, hB, hocc, hw⟩ := h
  have hfr : ∀ (sig m : Nat), m.testBit 1 = false →
      (updateState sig ZX_SOCKET_READABLE m).testBit 1 = sig.testBit 1 :=
    fun sig m hm => updateState_testBit_frame _ _ _ 1 (by decide) hm
  unfold SocketPair.Read
  simp only []
  split
  · exact ⟨hA, hB, hocc, hw⟩
  split
  · exact ⟨hA, hB, hocc, hw⟩
  split
  · split
    · exact ⟨hA, hB, hocc, hw⟩
    split
    · exact ⟨hA, hB, hocc, hw⟩
    · exact ⟨hA, hB, hocc, hw⟩
  · show WritableInv (if _ = true then _ else _)
    apply inv_read_core p s _ _ hA hB hocc hw
    · -- occupancy of the post-read reader socket
      have hle := Read_occupancy_le (p.self s).data_ len
        ((p.self s).flags_ &&& ZX_SOCKET_DATAGRAM != 0)
      split
      all_goals simp [SocketDispatcher.UpdateState]
      all_goals exact Nat.le_trans hle (hocc s)
    · -- WRITABLE bit of the reader socket is unchanged
      split
      · split
        · exact hfr _ _ (by decide)
        · exact hfr _ _ (by decide)
      · rfl
    · -- when the branch condition holds the reader pipeline is no longer full
      intro hb
      simp only [Bool.and_eq_true] at hb
      obtain ⟨hwf, hst⟩ := hb
      have hlt := Read_occupancy_lt (p.self s).data_ len
        ((p.self s).flags_ &&& ZX_SOCKET_DATAGRAM != 0) (by simpa using hst)
      have hocc_s := hocc s
      rw [is_full_false_iff]
      split
      all_goals simp [SocketDispatcher.UpdateState]
      all_goals omega
    · -- monotonicity: reading cannot make the pipeline full
      intro hnf
      rw [is_full_false_iff] at hnf
      have hle := Read_occupancy_le (p.self s).data_ len
        ((p.self s).flags_ &&& ZX_SOCKET_DATAGRAM != 0)
      rw [is_full_false_iff]
      split
      all_goals simp [SocketDispatcher.UpdateState]
      all_goals omega


theorem updateState_testBit1_mono (sig c m : Nat) (hm : m.testBit 1 = false)
    (h : (updateState sig c m).testBit 1 = true) : sig.testBit 1 = true := by
  rw [Nat.testBit_updateState] at h
  simp [hm] at h
  exact h.1

theorem ShutdownSelf_data (sk : SocketDispatcher) (how : Nat) :
    (sk.ShutdownSelf how).data_ = sk.data_ := rfl

theorem ShutdownOther_data (sk : SocketDispatcher) (how : Nat) :
    ((sk.ShutdownOther how).2).data_ = sk.data_ := rfl

theorem ShutdownSelf_bit1 (sk : SocketDispatcher) (how : Nat)
    (h : (sk.ShutdownSelf how).signals_.testBit 1 = true) :
    sk.signals_.testBit 1 = true :=
  updateState_testBit1_mono _ _ _ (by split <;> split <;> decide) h

theorem ShutdownOther_bit1 (sk : SocketDispatcher) (how : Nat)
    (h : ((sk.ShutdownOther how).2).signals_.testBit 1 = true) :
    sk.signals_.testBit 1 = true :=
  updateState_testBit1_mono _ _ _ (by split <;> split <;> decide) h

theorem inv_shutdown (p : SocketPair) (s : Side) (how : Nat)
    (h : WritableInv p) : WritableInv (p.Shutdown s how).2 := by
  obtain ⟨hA, hB, hocc, hw⟩ := h
  by_cases hc : ((if how &&& ZX_SOCKET_SHUTDOWN_READ != 0 then ZX_SOCKET_READ_DISABLED else 0) |||
      (if how &&& ZX_SOCKET_SHUTDOWN_WRITE != 0 then ZX_SOCKET_WRITE_DISABLED else 0)) =
      (p.self s).signals_ &&& (ZX_SOCKET_READ_DISABLED ||| ZX_SOCKET_WRITE_DISABLED)
  case pos =>
    simp only [SocketPair.Shutdown, SocketDispatcher.GetSignalsState]
    rw [if_pos hc]
    exact ⟨hA, hB, hocc, hw⟩
  simp only [SocketPair.Shutdown, SocketDispatcher.GetSignalsState]
  rw [if_neg hc]
  split
  · refine ⟨by simp [hA], by simp [hB], ?_, ?_⟩
    · intro t
      rcases side_eq_or t s with rfl | rfl
      · simp
        rw [ShutdownSelf_data]
        exact hocc s
      · rw [SocketPair.self_otherSide]
        simp
        rw [ShutdownOther_data]
        have := hocc (otherSide s)
        rwa [SocketPair.self_otherSide] at this
    · intro t hbit
      rcases side_eq_or t s with rfl | rfl
      · simp at hbit
        have hb := ShutdownSelf_bit1 _ _ hbit
        have hws := hw s hb
        simp
        rw [ShutdownOther_data]
        exact hws
      · rw [SocketPair.self_otherSide] at hbit
        rw [SocketPair.peer_otherSide]
        simp at hbit
        have hb := ShutdownOther_bit1 _ _ hbit
        have hws := hw (otherSide s)
        rw [SocketPair.self_otherSide, SocketPair.peer_otherSide] at hws
        simp
        rw [ShutdownSelf_data]
        exact hws hb
  · refine ⟨by simp [hA], by simp [hB], ?_, ?_⟩
    · intro t
      rcases side_eq_or t s with rfl | rfl
      · simp
        rw [ShutdownSelf_data]
        exact hocc s
      · rw [SocketPair.self_otherSide]
        simp
        have := hocc (otherSide s)
        rwa [SocketPair.self_otherSide] at this
    · intro t hbit
      rcases side_eq_or t s with rfl | rfl
      · simp at hbit
        have hb := ShutdownSelf_bit1 _ _ hbit
        have hws := hw s hb
        simp
        exact hws
      · rw [SocketPair.self_otherSide] at hbit
        rw [SocketPair.peer_otherSide]
        simp at hbit
        have hws := hw (otherSide s)
        rw [SocketPair.self_otherSide, SocketPair.peer_otherSide] at hws
        simp
        rw [ShutdownSelf_data]
        exact hws hbit

theorem inv_create (flags : Nat) (p : SocketPair)
    (h : SocketPair.Create flags = .ok p) : WritableInv p := by
  unfold SocketPair.Create at h
  split at h
  · exact absurd h (by simp)
  · rw [Except.ok.injEq] at h
    subst h
    refine ⟨rfl, rfl, ?_, ?_⟩
    · intro t
      cases t <;> simp [mkSocket, MBufChain.occupancy, kSizeMax]
    · intro t _
      cases t <;> simp [mkSocket, MBufChain.is_full, MBufChain.occupancy, kSizeMax]

theorem inv_reachable (p : SocketPair) (h : ReachableRWS p) : WritableInv p := by
  induction h with
  | create flags q hq => exact inv_create flags q hq
  | write q s src len _ ih => exact inv_write q s src len ih
  | read q s dst len _ ih => exact inv_read q s dst len ih
  | shutdown q s how _ ih => exact inv_shutdown q s how ih

/-- C1 (amended): in every state reachable from a freshly created pair by
any sequence of Write, Read and Shutdown operations on either endpoint, a
set WRITABLE signal implies the peer is still present and the peer-side
inbound pipeline is not full.  The third conjunct of the original claim
(WRITABLE implies WRITE_DISABLED clear) is false on the code: see
C1_counterexample. -/
theorem C1_writable_invariant (p : SocketPair) (hr : ReachableRWS p) (s : Side)
    (hbit : (p.self s).hasSignal ZX_SOCKET_WRITABLE = true) :
    p.linked = true ∧ (p.peer s).data_.is_full = false := by
  obtain ⟨hA, hB, hocc, hw⟩ := inv_reachable p hr
  refine ⟨by simp [SocketPair.linked, hA, hB], ?_⟩
  apply hw s
  rwa [hasSignal_WRITABLE] at hbit

theorem C1_writable_invariant_witness :
    pair0.linked = true ∧ (pair0.peer .A).data_.is_full = false :=
  C1_writable_invariant pair0 (ReachableRWS.create 0 pair0 rfl) .A (by decide)

end Zircon
